import Mathlib

/-!
Verification of the GCE system-variables collector (`sysvars/sysvars_gce.go`).

The collector is embedded shallowly: every external collaborator (the GCE
metadata client, the Kubernetes probe, the `HOSTNAME` environment variable,
the compute management API) is a field of an `Env` record, fallible calls
returning `Except String` in place of Go's `(value, error)` pairs.  The
mutable variable map and the logger are threaded explicitly as state, so the
Go functions become pure Lean functions from `Env` and the current state to
the next state.  Go's `strings.Split` / `strings.Join` (used only with the
one-character separators "/" and "-") are modelled by `splitChars` /
`joinSep` below.
-/

set_option maxHeartbeats 1000000

namespace SysvarsGce

/-- Severity levels of the logger interface (`Warningf`, `Infof`, `Debugf`). -/
inductive LogLevel where
  | warning
  | info
  | debug
  deriving DecidableEq, Repr

/-- One emitted log line: a severity and the formatted message (format
arguments are appended where the Go code interpolates them at the end). -/
structure LogEntry where
  level : LogLevel
  msg : String
  deriving DecidableEq, Repr

/-- The external collaborators consumed by the collector, as in the source:
`metadata.OnGCE`, `metadata.ProjectID`, `metadata.NumericProjectID`,
`metadata.InstanceID`, `md.IsKubernetes`, `md.KubernetesNamespace`,
`metadata.InstanceName`, `os.Getenv("HOSTNAME")`, `metadata.Zone`,
`metadata.InternalIP`, `metadata.ExternalIP`,
`metadata.InstanceAttributeValue`, `metadata.Get`, `compute.NewService` and
the `Instances.Get(project, zone, instance)` call (returning the instance's
label map). -/
structure Env where
  onGCE : Bool
  projectID : Except String String
  numericProjectID : Except String String
  instanceID : Except String String
  isKubernetes : Bool
  kubernetesNamespace : String
  instanceName : Except String String
  hostnameEnv : String
  zone : Except String String
  internalIP : Except String String
  externalIP : Except String String
  instanceAttributeValue : String → Except String String
  get : String → Except String String
  newService : Except String Unit
  instancesGet : String → String → String → Except String (List (String × String))

/-- The variable table `vars map[string]string`, as the partial lookup
function it denotes (a Go map read `vars[k]` that hits returns the value,
a miss returns the zero value; we keep the hit/miss distinction). -/
abbrev Vars := String → Option String

/-- The empty variable table. -/
def Vars.empty : Vars := fun _ => none

/-- The Go map write `vars[k] = v`. -/
def Vars.set (vars : Vars) (k v : String) : Vars :=
  fun q => if q = k then some v else vars q

/-- Go's `strings.Split` on a list of characters, for a one-character
separator: always yields at least one (possibly empty) token. -/
def splitChars (sep : Char) : List Char → List (List Char)
  | [] => [[]]
  | c :: cs =>
    let r := splitChars sep cs
    if c = sep then [] :: r
    else
      match r with
      | [] => [[c]]
      | t :: ts => (c :: t) :: ts

/-- Go's `strings.Split s sep` for a one-character separator. -/
def stringSplit (s : String) (sep : Char) : List String :=
  (splitChars sep s.data).map List.asString

/-- Go's `strings.Join` with a separator string. -/
def joinSep (sep : String) : List String → String
  | [] => ""
  | [s] => s
  | s :: rest => s ++ sep ++ joinSep sep rest

/-- The helper closure in `gceVars`: `tokens := strings.Split(value, "/");
return tokens[len(tokens)-1]` (the split is never empty, so the index is
in bounds; `getLastD` coincides with that last element). -/
def getLastToken (value : String) : String :=
  let tokens := stringSplit value '/'
  tokens.getLastD ""

/-- `zoneParts := strings.Split(zone, "-");
strings.Join(zoneParts[0:len(zoneParts)-1], "-")`. -/
def regionFromZone (zone : String) : String :=
  let zoneParts := stringSplit zone '-'
  joinSep "-" (zoneParts.take (zoneParts.length - 1))

/-- `fmt.Errorf("sysvars_gce: error while getting %s from metadata: %v", k, err)`. -/
def metadataErr (k err : String) : String :=
  "sysvars_gce: error while getting " ++ k ++ " from metadata: " ++ err

/-- `commonGCEGKEVars`: the three mandatory identity lookups.  The Go code
ranges over a map, whose iteration order is unspecified; we fix the order
project, project_id, instance_id (order is observable only in which error
wins when several lookups fail at once).  On failure the table keeps the
writes already made, as the in-place Go map does. -/
def commonGCEGKEVars (env : Env) (vars : Vars) : Vars × Option String :=
  match env.projectID with
  | .error err => (vars, some (metadataErr "project" err))
  | .ok v =>
    let vars := vars.set "project" v
    match env.numericProjectID with
    | .error err => (vars, some (metadataErr "project_id" err))
    | .ok v2 =>
      let vars := vars.set "project_id" v2
      match env.instanceID with
      | .error err => (vars, some (metadataErr "instance_id" err))
      | .ok v3 => (vars.set "instance_id" v3, none)

/-- One iteration body of the five-key attribute loop in `gceVars`: the
`switch k` statement.  Returns the value (or the already-formatted error
that makes the loop return) together with the log lines emitted. -/
def attrStep (env : Env) (k : String) : Except String String × List LogEntry :=
  if k = "zone" then
    match env.zone with
    | .error e => (.error (metadataErr "zone" e), [])
    | .ok v => (.ok v, [])
  else if k = "internal_ip" then
    match env.internalIP with
    | .error e => (.error (metadataErr "internal_ip" e), [])
    | .ok v => (.ok v, [])
  else if k = "external_ip" then
    match env.externalIP with
    | .error e => (.error (metadataErr "external_ip" e), [])
    | .ok v => (.ok v, [])
  else if k = "instance_template" then
    match env.instanceAttributeValue "instance-template" with
    | .error _ =>
      (.ok "undefined", [⟨.info, "No instance_template found. Defaulting to undefined."⟩])
    | .ok v => (.ok (getLastToken v), [])
  else if k = "machine_type" then
    match env.get "instance/machine-type" with
    | .error _ =>
      (.ok "undefined", [⟨.info, "Could not fetch machine type. Defaulting to undefined."⟩])
    | .ok v => (.ok (getLastToken v), [])
  else
    (.error ("sysvars_gce: unknown variable key \"" ++ k ++ "\""), [])

/-- The `for _, k := range []string{...}` loop in `gceVars`: on the first
error it returns it (leaving the writes already made), otherwise it writes
`vars[k] = v` and continues. -/
def attrLoop (env : Env) (vars : Vars) (log : List LogEntry) :
    List String → Vars × List LogEntry × Option String
  | [] => (vars, log, none)
  | k :: ks =>
    match attrStep env k with
    | (.error e, entries) => (vars, log ++ entries, some e)
    | (.ok v, entries) => attrLoop env (vars.set k v) (log ++ entries) ks

/-- The key list of the attribute loop, in source order. -/
def attrKeys : List String :=
  ["zone", "internal_ip", "external_ip", "instance_template", "machine_type"]

/-- `var maxNICs = 8`. -/
def maxNICs : Nat := 8

/-- `fmt.Sprintf("instance/network-interfaces/%v/ip", i)`. -/
def nicIPPath (i : Nat) : String :=
  "instance/network-interfaces/" ++ toString i ++ "/ip"

/-- `fmt.Sprintf("instance/network-interfaces/%v/ipv6s", i)`. -/
def nicIPv6Path (i : Nat) : String :=
  "instance/network-interfaces/" ++ toString i ++ "/ipv6s"

/-- `fmt.Sprintf("nic_%d_ip", i)`. -/
def nicIPKey (i : Nat) : String :=
  "nic_" ++ toString i ++ "_ip"

/-- Go's `strings.TrimSpace` on the underlying characters: drop leading and
trailing whitespace (the inputs here are ASCII, where `Char.isWhitespace`
agrees with Go's `unicode.IsSpace`). -/
def trimSpaceChars (l : List Char) : List Char :=
  ((l.dropWhile Char.isWhitespace).reverse.dropWhile Char.isWhitespace).reverse

/-- Go's `strings.TrimSpace`. -/
def trimSpace (s : String) : String := (trimSpaceChars s.data).asString

/-- One iteration of the NIC loop in `addGceNicInfo`: a failed primary-IP
lookup skips the slot; otherwise `nic_<i>_ip` is written, and the IPv6
lookup, when present, is trimmed and stored under the raw lookup path (with
the `internal_ipv6_ip` alias when `i = 0`), a missing IPv6 being logged at
debug level. -/
def nicStep (env : Env) (i : Nat) (vars : Vars) (log : List LogEntry) :
    Vars × List LogEntry :=
  match env.get (nicIPPath i) with
  | .error _ => (vars, log)
  | .ok v =>
    let vars := vars.set (nicIPKey i) v
    match env.get (nicIPv6Path i) with
    | .error _ =>
      (vars, log ++ [⟨.debug, "VM does not have ipv6 ip on interface# " ++ toString i⟩])
    | .ok v6 =>
      let v6 := trimSpace v6
      let vars := vars.set (nicIPv6Path i) v6
      let vars := if i = 0 then vars.set "internal_ipv6_ip" v6 else vars
      (vars, log)

/-- `addGceNicInfo`: `for i := 0; i < maxNICs; i++`.  No error return. -/
def addGceNicInfo (env : Env) (vars : Vars) (log : List LogEntry) :
    Vars × List LogEntry :=
  (List.range maxNICs).foldl (fun p i => nicStep env i p.1 p.2) (vars, log)

/-- `labelsFromGCE`: construct the compute service (construction failure is
a hard error), then fetch the instance; a fetch failure is logged and
yields `nil, nil` — an empty label set with no error. -/
def labelsFromGCE (env : Env) (project zone instName : String)
    (log : List LogEntry) :
    List LogEntry × Except String (List (String × String)) :=
  match env.newService with
  | .error err =>
    (log, .error ("error creating compute service to get instance labels: " ++ err))
  | .ok _ =>
    match env.instancesGet project zone instName with
    | .error err =>
      (log ++ [⟨.warning,
        "sysvars_gce: Error while fetching the instance resource using GCE API: "
          ++ err ++ ". Continuing without labels info."⟩], .ok [])
    | .ok labels => (log, .ok labels)

/-- The result of `gceVars`: the final table and log, plus the returned
`(bool, error)` pair. -/
structure GceResult where
  vars : Vars
  log : List LogEntry
  onGCE : Bool
  err : Option String

/-- `gceVars`, statement by statement from the source:
platform check; `commonGCEGKEVars`; the Kubernetes short-circuit writing
`namespace`; the instance-name fetch whose failure logs a warning, writes
`HOSTNAME` into `instance` and returns `onGCE, nil` at once; the five-key
attribute loop; the region derivation from `vars["zone"]`; `addGceNicInfo`;
and `labelsFromGCE` whose error is returned, its labels otherwise merged
under `label_` prefixes. -/
def gceVars (env : Env) (vars : Vars) (log : List LogEntry) : GceResult :=
  if env.onGCE = false then ⟨vars, log, false, none⟩ else
  match commonGCEGKEVars env vars with
  | (vars1, some e) => ⟨vars1, log, true, some e⟩
  | (vars1, none) =>
    if env.isKubernetes then
      ⟨vars1.set "namespace" env.kubernetesNamespace, log, true, none⟩
    else
      match env.instanceName with
      | .error e =>
        ⟨vars1.set "instance" env.hostnameEnv,
         log ++ [⟨.warning,
           "Error getting instance name on GCE, using HOSTNAME environment variable: " ++ e⟩],
         true, none⟩
      | .ok instName =>
        let vars2 := vars1.set "instance" instName
        match attrLoop env vars2 log attrKeys with
        | (vars3, log3, some e) => ⟨vars3, log3, true, some e⟩
        | (vars3, log3, none) =>
          let vars4 := vars3.set "region" (regionFromZone ((vars3 "zone").getD ""))
          let p := addGceNicInfo env vars4 log3
          match labelsFromGCE env ((p.1 "project").getD "") ((p.1 "zone").getD "")
              ((p.1 "instance").getD "") p.2 with
          | (log5, .error e) => ⟨p.1, log5, true, some e⟩
          | (log5, .ok labels) =>
            ⟨labels.foldl (fun vs q => vs.set ("label_" ++ q.1) q.2) p.1,
             log5, true, none⟩

/-- Decidable equality for the `Except` results of the modelled calls. -/
instance {ε α : Type} [DecidableEq ε] [DecidableEq α] : DecidableEq (Except ε α) :=
  fun x y =>
    match x, y with
    | .error a, .error b =>
      if h : a = b then .isTrue (congrArg Except.error h)
      else .isFalse fun he => h (Except.error.inj he)
    | .error _, .ok _ => .isFalse Except.noConfusion
    | .ok _, .error _ => .isFalse Except.noConfusion
    | .ok a, .ok b =>
      if h : a = b then .isTrue (congrArg Except.ok h)
      else .isFalse fun he => h (Except.ok.inj he)

/-- Concrete environment for C1: on GCE, identity succeeds, not
orchestrated, the instance-name lookup fails, and every later lookup would
succeed (zone "us-central1-a" etc.). -/
def envC1 : Env where
  onGCE := true
  projectID := .ok "my-proj"
  numericProjectID := .ok "12345"
  instanceID := .ok "6789"
  isKubernetes := false
  kubernetesNamespace := "ns"
  instanceName := .error "forbidden"
  hostnameEnv := "host-x"
  zone := .ok "us-central1-a"
  internalIP := .ok "10.0.0.2"
  externalIP := .ok "34.1.2.3"
  instanceAttributeValue := fun _ => .ok "projects/p/instanceTemplates/tpl-7"
  get := fun _ => .ok "projects/p/machineTypes/n1-standard-1"
  newService := .ok ()
  instancesGet := fun _ _ _ => .ok [("env", "prod")]


/-! Concrete witness environments -/

/-- A fully healthy concrete environment. -/
def envBase : Env where
  onGCE := true
  projectID := .ok "my-proj"
  numericProjectID := .ok "12345"
  instanceID := .ok "6789"
  isKubernetes := false
  kubernetesNamespace := "prod-ns"
  instanceName := .ok "vm-1"
  hostnameEnv := "host-x"
  zone := .ok "us-central1-a"
  internalIP := .ok "10.0.0.2"
  externalIP := .ok "34.1.2.3"
  instanceAttributeValue := fun _ => .ok "projects/p/instanceTemplates/tpl-7"
  get := fun k =>
    if k = "instance/machine-type" then .ok "projects/p/machineTypes/n1-standard-1"
    else .error "nf"
  newService := .ok ()
  instancesGet := fun _ _ _ => .ok []

/-- C2 witness environment: orchestrated (Kubernetes) variant. -/
def envC2 : Env := { envBase with isKubernetes := true }

/-- C3 witness environment: the numeric-project lookup fails. -/
def envC3 : Env := { envBase with numericProjectID := .error "boom" }

/-- C4 witness environment: the internal-IP lookup fails. -/
def envC4 : Env := { envBase with internalIP := .error "down" }

/-- C5 witness environment: the instance-template lookup fails. -/
def envC5 : Env := { envBase with instanceAttributeValue := fun _ => .error "nf" }

/-- C6 witness environment: zone with a different hyphen pattern. -/
def envC6 : Env := { envBase with zone := .ok "a-b-c-d" }

/-- C7 witness environment: primary IPs at slots 0 and 2 only, an IPv6
value at slot 0. -/
def envC7 : Env :=
  { envBase with
    get := fun k =>
      if k = nicIPPath 0 then .ok "10.0.0.2"
      else if k = nicIPv6Path 0 then .ok "  2001:db8::1  "
      else if k = nicIPPath 2 then .ok "10.0.1.2"
      else .error "nf" }

/-- C8 witness environment: slot 0 with primary IP and an untrimmed IPv6
value. -/
def envC8 : Env :=
  { envBase with
    get := fun k =>
      if k = nicIPPath 0 then .ok "10.0.0.2"
      else if k = nicIPv6Path 0 then .ok "  fe80::1 "
      else .error "nf" }

/-- C9 witness environments: client construction fails / instance lookup
fails. -/
def envC9a : Env := { envBase with newService := .error "auth" }

/-- C9 witness environment for the non-fatal per-instance failure. -/
def envC9b : Env := { envBase with instancesGet := fun _ _ _ => .error "denied" }


/-! Helper lemmas -/

/-- Reading back the key just written. -/
theorem Vars.set_self (vars : Vars) (k v : String) : vars.set k v k = some v := by
  simp [Vars.set]

/-- Reading a different key is unchanged by a write. -/
theorem Vars.set_ne (vars : Vars) (k v q : String) (h : ¬(q = k)) :
    vars.set k v q = vars q := by
  simp [Vars.set, h]

/-- `splitChars` never returns the empty list. -/
theorem splitChars_ne_nil (sep : Char) (l : List Char) : splitChars sep l ≠ [] := by
  induction l with
  | nil => simp [splitChars]
  | cons c cs ih =>
    simp only [splitChars]
    by_cases hc : c = sep
    · simp [hc]
    · simp only [hc, if_false]
      cases h : splitChars sep cs with
      | nil => exact absurd h ih
      | cons t ts => simp

/-- `stringSplit` never returns the empty list: the index
`tokens[len(tokens)-1]` is always in bounds. -/
theorem stringSplit_ne_nil (s : String) (sep : Char) : stringSplit s sep ≠ [] := by
  simp [stringSplit, splitChars_ne_nil]


/-- C2: on GCE with all three identity lookups succeeding and the
Kubernetes probe true, `gceVars` returns no error and the table holds
exactly `project`, `project_id`, `instance_id` and `namespace`. -/
theorem c2_orchestration_exact_table (env : Env) (p np iid : String)
    (h1 : env.onGCE = true) (h2 : env.projectID = .ok p)
    (h3 : env.numericProjectID = .ok np) (h4 : env.instanceID = .ok iid)
    (h5 : env.isKubernetes = true) :
    (gceVars env Vars.empty []).err = none ∧
    (gceVars env Vars.empty []).onGCE = true ∧
    (gceVars env Vars.empty []).vars "project" = some p ∧
    (gceVars env Vars.empty []).vars "project_id" = some np ∧
    (gceVars env Vars.empty []).vars "instance_id" = some iid ∧
    (gceVars env Vars.empty []).vars "namespace" = some env.kubernetesNamespace ∧
    ∀ k, k ≠ "project" → k ≠ "project_id" → k ≠ "instance_id" → k ≠ "namespace" →
      (gceVars env Vars.empty []).vars k = none := by
  simp only [gceVars, commonGCEGKEVars, h1, h2, h3, h4, h5, if_true,
    Bool.true_eq_false, if_false]
  refine ⟨trivial, trivial, by simp [Vars.set], by simp [Vars.set], by simp [Vars.set],
    by simp [Vars.set], ?_⟩
  intro k hk1 hk2 hk3 hk4
  simp [Vars.set, Vars.empty, hk1, hk2, hk3, hk4]


/-- C3: each identity lookup failure aborts `commonGCEGKEVars` with an error
naming the failing key (propagated by `gceVars`); when all three succeed,
all three values are written and no error is returned. -/
theorem c3_identity_mandatory (env : Env) (vars : Vars) (log : List LogEntry) :
    (∀ m, env.projectID = .error m →
      (commonGCEGKEVars env vars).2 = some (metadataErr "project" m)) ∧
    (∀ a m, env.projectID = .ok a → env.numericProjectID = .error m →
      (commonGCEGKEVars env vars).2 = some (metadataErr "project_id" m)) ∧
    (∀ a b m, env.projectID = .ok a → env.numericProjectID = .ok b →
      env.instanceID = .error m →
      (commonGCEGKEVars env vars).2 = some (metadataErr "instance_id" m)) ∧
    (∀ a b c, env.projectID = .ok a → env.numericProjectID = .ok b →
      env.instanceID = .ok c →
      (commonGCEGKEVars env vars).2 = none ∧
      (commonGCEGKEVars env vars).1 "project" = some a ∧
      (commonGCEGKEVars env vars).1 "project_id" = some b ∧
      (commonGCEGKEVars env vars).1 "instance_id" = some c) ∧
    (∀ e, env.onGCE = true → (commonGCEGKEVars env vars).2 = some e →
      (gceVars env vars log).err = some e) := by
  refine ⟨?_, ?_, ?_, ?_, ?_⟩
  · intro m h; simp [commonGCEGKEVars, h]
  · intro a m h1 h2; simp [commonGCEGKEVars, h1, h2]
  · intro a b m h1 h2 h3; simp [commonGCEGKEVars, h1, h2, h3]
  · intro a b c h1 h2 h3
    refine ⟨by simp [commonGCEGKEVars, h1, h2, h3], ?_, ?_, ?_⟩ <;>
      simp [commonGCEGKEVars, h1, h2, h3, Vars.set]
  · intro e h1 h2
    rcases hc : commonGCEGKEVars env vars with ⟨v1, e1⟩
    rw [hc] at h2
    simp only at h2
    subst h2
    simp [gceVars, h1, hc]

/-- C4: once on the non-orchestrated attribute path, a failing `zone`,
`internal_ip` or `external_ip` lookup aborts the whole collection with an
error naming the field, while the returned platform flag is still true. -/
theorem c4_mandatory_attr_failure (env : Env) (vars : Vars) (log : List LogEntry)
    (a b c nm : String)
    (h1 : env.onGCE = true) (h2 : env.projectID = .ok a)
    (h3 : env.numericProjectID = .ok b) (h4 : env.instanceID = .ok c)
    (h5 : env.isKubernetes = false) (h6 : env.instanceName = .ok nm) :
    (∀ m, env.zone = .error m →
      (gceVars env vars log).err = some (metadataErr "zone" m) ∧
      (gceVars env vars log).onGCE = true) ∧
    (∀ z m, env.zone = .ok z → env.internalIP = .error m →
      (gceVars env vars log).err = some (metadataErr "internal_ip" m) ∧
      (gceVars env vars log).onGCE = true) ∧
    (∀ z i m, env.zone = .ok z → env.internalIP = .ok i →
      env.externalIP = .error m →
      (gceVars env vars log).err = some (metadataErr "external_ip" m) ∧
      (gceVars env vars log).onGCE = true) := by
  refine ⟨?_, ?_, ?_⟩
  · intro m hz
    simp [gceVars, commonGCEGKEVars, attrLoop, attrKeys, attrStep,
      h1, h2, h3, h4, h5, h6, hz]
  · intro z m hz hi
    simp [gceVars, commonGCEGKEVars, attrLoop, attrKeys, attrStep,
      h1, h2, h3, h4, h5, h6, hz, hi]
  · intro z i m hz hi he
    simp [gceVars, commonGCEGKEVars, attrLoop, attrKeys, attrStep,
      h1, h2, h3, h4, h5, h6, hz, hi, he]


/-- C1 counterexample: with `envC1` the instance-name lookup fails while
every later lookup would succeed, yet the zone, internal_ip and region
steps are not performed — the call returns at once with `instance` set from
`HOSTNAME` and no error, contradicting the claim that collection
continues. -/
theorem c1_counterexample :
    envC1.zone = .ok "us-central1-a" ∧
    (gceVars envC1 Vars.empty []).err = none ∧
    (gceVars envC1 Vars.empty []).vars "instance" = some "host-x" ∧
    (gceVars envC1 Vars.empty []).vars "zone" = none ∧
    (gceVars envC1 Vars.empty []).vars "internal_ip" = none ∧
    (gceVars envC1 Vars.empty []).vars "region" = none := by
  refine ⟨rfl, ?_, ?_, ?_, ?_, ?_⟩ <;> decide

/-- C1 (amended): if the instance-name lookup fails on GCE outside an
orchestrated environment, `gceVars` logs a warning, writes `instance` from
the `HOSTNAME` environment variable, and returns immediately with success
(platform flag true, no error), performing none of the remaining
instance-attribute, NIC or label steps. -/
theorem c1_instance_name_fallback (env : Env) (vars : Vars) (log : List LogEntry)
    (m : String)
    (h1 : env.onGCE = true) (h2 : (commonGCEGKEVars env vars).2 = none)
    (h3 : env.isKubernetes = false) (h4 : env.instanceName = .error m) :
    gceVars env vars log =
      ⟨(commonGCEGKEVars env vars).1.set "instance" env.hostnameEnv,
       log ++ [⟨.warning,
         "Error getting instance name on GCE, using HOSTNAME environment variable: " ++ m⟩],
       true, none⟩ := by
  rcases hc : commonGCEGKEVars env vars with ⟨v1, e1⟩
  rw [hc] at h2
  simp only at h2
  subst h2
  simp [gceVars, h1, hc, h3, h4]

/-- C1 witness: the amended behaviour at the concrete `envC1`. -/
theorem c1_witness :
    gceVars envC1 Vars.empty [] =
      ⟨(commonGCEGKEVars envC1 Vars.empty).1.set "instance" envC1.hostnameEnv,
       [⟨.warning,
         "Error getting instance name on GCE, using HOSTNAME environment variable: " ++ "forbidden"⟩],
       true, none⟩ :=
  c1_instance_name_fallback envC1 Vars.empty [] "forbidden" rfl (by decide) rfl rfl


/-- When no NIC slot has a primary IP, the NIC loop writes nothing. -/
theorem addGceNicInfo_of_no_ip (env : Env) (vars : Vars) (log : List LogEntry)
    (m : String) (h : ∀ i, i < maxNICs → env.get (nicIPPath i) = .error m) :
    addGceNicInfo env vars log = (vars, log) := by
  have h0 := h 0 (by decide)
  have h1 := h 1 (by decide)
  have h2 := h 2 (by decide)
  have h3 := h 3 (by decide)
  have h4 := h 4 (by decide)
  have h5 := h 5 (by decide)
  have h6 := h 6 (by decide)
  have h7 := h 7 (by decide)
  rw [addGceNicInfo, show List.range maxNICs = [0, 1, 2, 3, 4, 5, 6, 7] from by decide]
  simp [List.foldl, nicStep, h0, h1, h2, h3, h4, h5, h6, h7]

/-- C5: `instance_template` and `machine_type` fall back to the literal
"undefined" with an informational log line and no error when their lookup
fails, and keep only the last slash-delimited path segment on success. -/
theorem c5_undefined_fallback (env : Env) (vars : Vars) (log : List LogEntry)
    (a b c nm z ii ei nicErr : String)
    (h1 : env.onGCE = true) (h2 : env.projectID = .ok a)
    (h3 : env.numericProjectID = .ok b) (h4 : env.instanceID = .ok c)
    (h5 : env.isKubernetes = false) (h6 : env.instanceName = .ok nm)
    (hz : env.zone = .ok z) (hii : env.internalIP = .ok ii)
    (hei : env.externalIP = .ok ei)
    (hnic : ∀ i, i < maxNICs → env.get (nicIPPath i) = .error nicErr)
    (hsvc : env.newService = .ok ())
    (hlab : ∀ x y w, env.instancesGet x y w = .ok []) :
    (∀ m mv, env.instanceAttributeValue "instance-template" = .error m →
      env.get "instance/machine-type" = .ok mv →
      (gceVars env vars log).vars "instance_template" = some "undefined" ∧
      (gceVars env vars log).err = none ∧
      LogEntry.mk .info "No instance_template found. Defaulting to undefined."
        ∈ (gceVars env vars log).log) ∧
    (∀ tv mv, env.instanceAttributeValue "instance-template" = .ok tv →
      env.get "instance/machine-type" = .ok mv →
      (gceVars env vars log).vars "instance_template" = some (getLastToken tv)) ∧
    (∀ tv m, env.instanceAttributeValue "instance-template" = .ok tv →
      env.get "instance/machine-type" = .error m →
      (gceVars env vars log).vars "machine_type" = some "undefined" ∧
      (gceVars env vars log).err = none ∧
      LogEntry.mk .info "Could not fetch machine type. Defaulting to undefined."
        ∈ (gceVars env vars log).log) ∧
    (∀ tv mv, env.instanceAttributeValue "instance-template" = .ok tv →
      env.get "instance/machine-type" = .ok mv →
      (gceVars env vars log).vars "machine_type" = some (getLastToken mv)) := by
  have hskip : ∀ v l, addGceNicInfo env v l = (v, l) := fun v l =>
    addGceNicInfo_of_no_ip env v l nicErr hnic
  refine ⟨?_, ?_, ?_, ?_⟩
  · intro m mv htv hmv
    simp [gceVars, commonGCEGKEVars, attrLoop, attrKeys, attrStep, labelsFromGCE,
      h1, h2, h3, h4, h5, h6, hz, hii, hei, htv, hmv, hskip, hsvc, hlab, Vars.set]
  · intro tv mv htv hmv
    simp [gceVars, commonGCEGKEVars, attrLoop, attrKeys, attrStep, labelsFromGCE,
      h1, h2, h3, h4, h5, h6, hz, hii, hei, htv, hmv, hskip, hsvc, hlab, Vars.set]
  · intro tv m htv hmv
    simp [gceVars, commonGCEGKEVars, attrLoop, attrKeys, attrStep, labelsFromGCE,
      h1, h2, h3, h4, h5, h6, hz, hii, hei, htv, hmv, hskip, hsvc, hlab, Vars.set]
  · intro tv mv htv hmv
    simp [gceVars, commonGCEGKEVars, attrLoop, attrKeys, attrStep, labelsFromGCE,
      h1, h2, h3, h4, h5, h6, hz, hii, hei, htv, hmv, hskip, hsvc, hlab, Vars.set]


/-- C6: the `region` variable is derived from the stored `zone` value by
dropping the final hyphen-delimited token: the table stores `zone = z` and
`region = regionFromZone z`, and for every string the derivation equals the
hyphen-join of all split tokens but the last. -/
theorem c6_region_from_zone (env : Env) (vars : Vars) (log : List LogEntry)
    (a b c nm z ii ei tv mv nicErr : String)
    (h1 : env.onGCE = true) (h2 : env.projectID = .ok a)
    (h3 : env.numericProjectID = .ok b) (h4 : env.instanceID = .ok c)
    (h5 : env.isKubernetes = false) (h6 : env.instanceName = .ok nm)
    (hz : env.zone = .ok z) (hii : env.internalIP = .ok ii)
    (hei : env.externalIP = .ok ei)
    (htv : env.instanceAttributeValue "instance-template" = .ok tv)
    (hmv : env.get "instance/machine-type" = .ok mv)
    (hnic : ∀ i, i < maxNICs → env.get (nicIPPath i) = .error nicErr)
    (hsvc : env.newService = .ok ())
    (hlab : ∀ x y w, env.instancesGet x y w = .ok []) :
    (gceVars env vars log).vars "zone" = some z ∧
    (gceVars env vars log).vars "region" = some (regionFromZone z) ∧
    ∀ w : String, regionFromZone w = joinSep "-" ((stringSplit w '-').dropLast) := by
  have hskip : ∀ v l, addGceNicInfo env v l = (v, l) := fun v l =>
    addGceNicInfo_of_no_ip env v l nicErr hnic
  refine ⟨?_, ?_, ?_⟩
  · simp [gceVars, commonGCEGKEVars, attrLoop, attrKeys, attrStep, labelsFromGCE,
      h1, h2, h3, h4, h5, h6, hz, hii, hei, htv, hmv, hskip, hsvc, hlab, Vars.set]
  · simp [gceVars, commonGCEGKEVars, attrLoop, attrKeys, attrStep, labelsFromGCE,
      h1, h2, h3, h4, h5, h6, hz, hii, hei, htv, hmv, hskip, hsvc, hlab, Vars.set]
  · intro w
    rw [regionFromZone, List.dropLast_eq_take]


/-- C7: NIC slots are probed independently and the enumerator never
errors: with primary IPs at slots 0 and 2 only, `nic_0_ip` and `nic_2_ip`
are written but `nic_1_ip` is not, and slot 0's IPv6 value
"  2001:db8::1  " yields the trimmed alias `internal_ipv6_ip`. -/
theorem c7_nic_slots_independent (env : Env) (ip0 ip2 e1 e2 e3 : String)
    (h0 : env.get (nicIPPath 0) = .ok ip0)
    (h0v6 : env.get (nicIPv6Path 0) = .ok "  2001:db8::1  ")
    (hs1 : env.get (nicIPPath 1) = .error e1)
    (h2 : env.get (nicIPPath 2) = .ok ip2)
    (h2v6 : env.get (nicIPv6Path 2) = .error e2)
    (hrest : ∀ i, i < maxNICs → 3 ≤ i → env.get (nicIPPath i) = .error e3) :
    (addGceNicInfo env Vars.empty []).1 "nic_0_ip" = some ip0 ∧
    (addGceNicInfo env Vars.empty []).1 "nic_1_ip" = none ∧
    (addGceNicInfo env Vars.empty []).1 "nic_2_ip" = some ip2 ∧
    (addGceNicInfo env Vars.empty []).1 "internal_ipv6_ip" = some "2001:db8::1" := by
  have hr3 := hrest 3 (by decide) (by decide)
  have hr4 := hrest 4 (by decide) (by decide)
  have hr5 := hrest 5 (by decide) (by decide)
  have hr6 := hrest 6 (by decide) (by decide)
  have hr7 := hrest 7 (by decide) (by decide)
  have htrim : trimSpace "  2001:db8::1  " = "2001:db8::1" := by decide
  have pk0 : nicIPPath 0 = "instance/network-interfaces/0/ip" := by decide
  have vk0 : nicIPv6Path 0 = "instance/network-interfaces/0/ipv6s" := by decide
  have nk0 : nicIPKey 0 = "nic_0_ip" := by decide
  have pk1 : nicIPPath 1 = "instance/network-interfaces/1/ip" := by decide
  have vk1 : nicIPv6Path 1 = "instance/network-interfaces/1/ipv6s" := by decide
  have nk1 : nicIPKey 1 = "nic_1_ip" := by decide
  have pk2 : nicIPPath 2 = "instance/network-interfaces/2/ip" := by decide
  have vk2 : nicIPv6Path 2 = "instance/network-interfaces/2/ipv6s" := by decide
  have nk2 : nicIPKey 2 = "nic_2_ip" := by decide
  have pk3 : nicIPPath 3 = "instance/network-interfaces/3/ip" := by decide
  have vk3 : nicIPv6Path 3 = "instance/network-interfaces/3/ipv6s" := by decide
  have nk3 : nicIPKey 3 = "nic_3_ip" := by decide
  have pk4 : nicIPPath 4 = "instance/network-interfaces/4/ip" := by decide
  have vk4 : nicIPv6Path 4 = "instance/network-interfaces/4/ipv6s" := by decide
  have nk4 : nicIPKey 4 = "nic_4_ip" := by decide
  have pk5 : nicIPPath 5 = "instance/network-interfaces/5/ip" := by decide
  have vk5 : nicIPv6Path 5 = "instance/network-interfaces/5/ipv6s" := by decide
  have nk5 : nicIPKey 5 = "nic_5_ip" := by decide
  have pk6 : nicIPPath 6 = "instance/network-interfaces/6/ip" := by decide
  have vk6 : nicIPv6Path 6 = "instance/network-interfaces/6/ipv6s" := by decide
  have nk6 : nicIPKey 6 = "nic_6_ip" := by decide
  have pk7 : nicIPPath 7 = "instance/network-interfaces/7/ip" := by decide
  have vk7 : nicIPv6Path 7 = "instance/network-interfaces/7/ipv6s" := by decide
  have nk7 : nicIPKey 7 = "nic_7_ip" := by decide
  rw [pk0] at h0
  rw [vk0] at h0v6
  rw [pk1] at hs1
  rw [pk2] at h2
  rw [vk2] at h2v6
  rw [pk3] at hr3
  rw [pk4] at hr4
  rw [pk5] at hr5
  rw [pk6] at hr6
  rw [pk7] at hr7
  rw [addGceNicInfo, show List.range maxNICs = [0, 1, 2, 3, 4, 5, 6, 7] from by decide]
  simp [List.foldl, nicStep, h0, h0v6, hs1, h2, h2v6, hr3, hr4, hr5, hr6, hr7,
    htrim, pk0, vk0, nk0, pk1, vk1, nk1, pk2, vk2, nk2, pk3, vk3, nk3, pk4, vk4,
    nk4, pk5, vk5, nk5, pk6, vk6, nk6, pk7, vk7, nk7, Vars.set, Vars.empty]



/-- C8: a present IPv6 list for slot `i` is stored, trimmed, under the raw
lookup path `instance/network-interfaces/<i>/ipv6s` — not under a
normalized `nic_<i>_ipv6` key — and the `internal_ipv6_ip` alias is written
exactly when `i = 0`. -/
theorem c8_ipv6_raw_path_key (env : Env) (i : Nat) (ip v6 e : String)
    (hi : i < maxNICs)
    (hip : env.get (nicIPPath i) = .ok ip)
    (hv6 : env.get (nicIPv6Path i) = .ok v6)
    (hothers : ∀ j, j < maxNICs → j ≠ i → env.get (nicIPPath j) = .error e) :
    (addGceNicInfo env Vars.empty []).1 (nicIPv6Path i) = some (trimSpace v6) ∧
    (addGceNicInfo env Vars.empty []).1 ("nic_" ++ toString i ++ "_ipv6") = none ∧
    (addGceNicInfo env Vars.empty []).1 "internal_ipv6_ip" =
      (if i = 0 then some (trimSpace v6) else none) := by
  have pk0 : nicIPPath 0 = "instance/network-interfaces/0/ip" := by decide
  have vk0 : nicIPv6Path 0 = "instance/network-interfaces/0/ipv6s" := by decide
  have nk0 : nicIPKey 0 = "nic_0_ip" := by decide
  have nv0 : ("nic_" ++ toString 0 ++ "_ipv6") = "nic_0_ipv6" := by decide
  have pk1 : nicIPPath 1 = "instance/network-interfaces/1/ip" := by decide
  have vk1 : nicIPv6Path 1 = "instance/network-interfaces/1/ipv6s" := by decide
  have nk1 : nicIPKey 1 = "nic_1_ip" := by decide
  have nv1 : ("nic_" ++ toString 1 ++ "_ipv6") = "nic_1_ipv6" := by decide
  have pk2 : nicIPPath 2 = "instance/network-interfaces/2/ip" := by decide
  have vk2 : nicIPv6Path 2 = "instance/network-interfaces/2/ipv6s" := by decide
  have nk2 : nicIPKey 2 = "nic_2_ip" := by decide
  have nv2 : ("nic_" ++ toString 2 ++ "_ipv6") = "nic_2_ipv6" := by decide
  have pk3 : nicIPPath 3 = "instance/network-interfaces/3/ip" := by decide
  have vk3 : nicIPv6Path 3 = "instance/network-interfaces/3/ipv6s" := by decide
  have nk3 : nicIPKey 3 = "nic_3_ip" := by decide
  have nv3 : ("nic_" ++ toString 3 ++ "_ipv6") = "nic_3_ipv6" := by decide
  have pk4 : nicIPPath 4 = "instance/network-interfaces/4/ip" := by decide
  have vk4 : nicIPv6Path 4 = "instance/network-interfaces/4/ipv6s" := by decide
  have nk4 : nicIPKey 4 = "nic_4_ip" := by decide
  have nv4 : ("nic_" ++ toString 4 ++ "_ipv6") = "nic_4_ipv6" := by decide
  have pk5 : nicIPPath 5 = "instance/network-interfaces/5/ip" := by decide
  have vk5 : nicIPv6Path 5 = "instance/network-interfaces/5/ipv6s" := by decide
  have nk5 : nicIPKey 5 = "nic_5_ip" := by decide
  have nv5 : ("nic_" ++ toString 5 ++ "_ipv6") = "nic_5_ipv6" := by decide
  have pk6 : nicIPPath 6 = "instance/network-interfaces/6/ip" := by decide
  have vk6 : nicIPv6Path 6 = "instance/network-interfaces/6/ipv6s" := by decide
  have nk6 : nicIPKey 6 = "nic_6_ip" := by decide
  have nv6 : ("nic_" ++ toString 6 ++ "_ipv6") = "nic_6_ipv6" := by decide
  have pk7 : nicIPPath 7 = "instance/network-interfaces/7/ip" := by decide
  have vk7 : nicIPv6Path 7 = "instance/network-interfaces/7/ipv6s" := by decide
  have nk7 : nicIPKey 7 = "nic_7_ip" := by decide
  have nv7 : ("nic_" ++ toString 7 ++ "_ipv6") = "nic_7_ipv6" := by decide
  have hi8 : i < 8 := hi
  rw [addGceNicInfo, show List.range maxNICs = [0, 1, 2, 3, 4, 5, 6, 7] from by decide]
  interval_cases i
  ·
    have ho1 := hothers 1 (by decide) (by decide)
    rw [pk1] at ho1
    have ho2 := hothers 2 (by decide) (by decide)
    rw [pk2] at ho2
    have ho3 := hothers 3 (by decide) (by decide)
    rw [pk3] at ho3
    have ho4 := hothers 4 (by decide) (by decide)
    rw [pk4] at ho4
    have ho5 := hothers 5 (by decide) (by decide)
    rw [pk5] at ho5
    have ho6 := hothers 6 (by decide) (by decide)
    rw [pk6] at ho6
    have ho7 := hothers 7 (by decide) (by decide)
    rw [pk7] at ho7
    rw [pk0] at hip
    rw [vk0] at hv6
    simp [List.foldl, nicStep, hip, hv6, ho1, ho2, ho3, ho4, ho5, ho6, ho7,
      pk0, vk0, nk0, nv0, pk1, vk1, nk1, nv1, pk2, vk2, nk2, nv2, pk3, vk3, nk3, nv3, pk4, vk4, nk4, nv4, pk5, vk5, nk5, nv5, pk6, vk6, nk6, nv6, pk7, vk7, nk7, nv7, Vars.set, Vars.empty]
  ·
    have ho0 := hothers 0 (by decide) (by decide)
    rw [pk0] at ho0
    have ho2 := hothers 2 (by decide) (by decide)
    rw [pk2] at ho2
    have ho3 := hothers 3 (by decide) (by decide)
    rw [pk3] at ho3
    have ho4 := hothers 4 (by decide) (by decide)
    rw [pk4] at ho4
    have ho5 := hothers 5 (by decide) (by decide)
    rw [pk5] at ho5
    have ho6 := hothers 6 (by decide) (by decide)
    rw [pk6] at ho6
    have ho7 := hothers 7 (by decide) (by decide)
    rw [pk7] at ho7
    rw [pk1] at hip
    rw [vk1] at hv6
    simp [List.foldl, nicStep, hip, hv6, ho0, ho2, ho3, ho4, ho5, ho6, ho7,
      pk0, vk0, nk0, nv0, pk1, vk1, nk1, nv1, pk2, vk2, nk2, nv2, pk3, vk3, nk3, nv3, pk4, vk4, nk4, nv4, pk5, vk5, nk5, nv5, pk6, vk6, nk6, nv6, pk7, vk7, nk7, nv7, Vars.set, Vars.empty]
  ·
    have ho0 := hothers 0 (by decide) (by decide)
    rw [pk0] at ho0
    have ho1 := hothers 1 (by decide) (by decide)
    rw [pk1] at ho1
    have ho3 := hothers 3 (by decide) (by decide)
    rw [pk3] at ho3
    have ho4 := hothers 4 (by decide) (by decide)
    rw [pk4] at ho4
    have ho5 := hothers 5 (by decide) (by decide)
    rw [pk5] at ho5
    have ho6 := hothers 6 (by decide) (by decide)
    rw [pk6] at ho6
    have ho7 := hothers 7 (by decide) (by decide)
    rw [pk7] at ho7
    rw [pk2] at hip
    rw [vk2] at hv6
    simp [List.foldl, nicStep, hip, hv6, ho0, ho1, ho3, ho4, ho5, ho6, ho7,
      pk0, vk0, nk0, nv0, pk1, vk1, nk1, nv1, pk2, vk2, nk2, nv2, pk3, vk3, nk3, nv3, pk4, vk4, nk4, nv4, pk5, vk5, nk5, nv5, pk6, vk6, nk6, nv6, pk7, vk7, nk7, nv7, Vars.set, Vars.empty]
  ·
    have ho0 := hothers 0 (by decide) (by decide)
    rw [pk0] at ho0
    have ho1 := hothers 1 (by decide) (by decide)
    rw [pk1] at ho1
    have ho2 := hothers 2 (by decide) (by decide)
    rw [pk2] at ho2
    have ho4 := hothers 4 (by decide) (by decide)
    rw [pk4] at ho4
    have ho5 := hothers 5 (by decide) (by decide)
    rw [pk5] at ho5
    have ho6 := hothers 6 (by decide) (by decide)
    rw [pk6] at ho6
    have ho7 := hothers 7 (by decide) (by decide)
    rw [pk7] at ho7
    rw [pk3] at hip
    rw [vk3] at hv6
    simp [List.foldl, nicStep, hip, hv6, ho0, ho1, ho2, ho4, ho5, ho6, ho7,
      pk0, vk0, nk0, nv0, pk1, vk1, nk1, nv1, pk2, vk2, nk2, nv2, pk3, vk3, nk3, nv3, pk4, vk4, nk4, nv4, pk5, vk5, nk5, nv5, pk6, vk6, nk6, nv6, pk7, vk7, nk7, nv7, Vars.set, Vars.empty]
  ·
    have ho0 := hothers 0 (by decide) (by decide)
    rw [pk0] at ho0
    have ho1 := hothers 1 (by decide) (by decide)
    rw [pk1] at ho1
    have ho2 := hothers 2 (by decide) (by decide)
    rw [pk2] at ho2
    have ho3 := hothers 3 (by decide) (by decide)
    rw [pk3] at ho3
    have ho5 := hothers 5 (by decide) (by decide)
    rw [pk5] at ho5
    have ho6 := hothers 6 (by decide) (by decide)
    rw [pk6] at ho6
    have ho7 := hothers 7 (by decide) (by decide)
    rw [pk7] at ho7
    rw [pk4] at hip
    rw [vk4] at hv6
    simp [List.foldl, nicStep, hip, hv6, ho0, ho1, ho2, ho3, ho5, ho6, ho7,
      pk0, vk0, nk0, nv0, pk1, vk1, nk1, nv1, pk2, vk2, nk2, nv2, pk3, vk3, nk3, nv3, pk4, vk4, nk4, nv4, pk5, vk5, nk5, nv5, pk6, vk6, nk6, nv6, pk7, vk7, nk7, nv7, Vars.set, Vars.empty]
  ·
    have ho0 := hothers 0 (by decide) (by decide)
    rw [pk0] at ho0
    have ho1 := hothers 1 (by decide) (by decide)
    rw [pk1] at ho1
    have ho2 := hothers 2 (by decide) (by decide)
    rw [pk2] at ho2
    have ho3 := hothers 3 (by decide) (by decide)
    rw [pk3] at ho3
    have ho4 := hothers 4 (by decide) (by decide)
    rw [pk4] at ho4
    have ho6 := hothers 6 (by decide) (by decide)
    rw [pk6] at ho6
    have ho7 := hothers 7 (by decide) (by decide)
    rw [pk7] at ho7
    rw [pk5] at hip
    rw [vk5] at hv6
    simp [List.foldl, nicStep, hip, hv6, ho0, ho1, ho2, ho3, ho4, ho6, ho7,
      pk0, vk0, nk0, nv0, pk1, vk1, nk1, nv1, pk2, vk2, nk2, nv2, pk3, vk3, nk3, nv3, pk4, vk4, nk4, nv4, pk5, vk5, nk5, nv5, pk6, vk6, nk6, nv6, pk7, vk7, nk7, nv7, Vars.set, Vars.empty]
  ·
    have ho0 := hothers 0 (by decide) (by decide)
    rw [pk0] at ho0
    have ho1 := hothers 1 (by decide) (by decide)
    rw [pk1] at ho1
    have ho2 := hothers 2 (by decide) (by decide)
    rw [pk2] at ho2
    have ho3 := hothers 3 (by decide) (by decide)
    rw [pk3] at ho3
    have ho4 := hothers 4 (by decide) (by decide)
    rw [pk4] at ho4
    have ho5 := hothers 5 (by decide) (by decide)
    rw [pk5] at ho5
    have ho7 := hothers 7 (by decide) (by decide)
    rw [pk7] at ho7
    rw [pk6] at hip
    rw [vk6] at hv6
    simp [List.foldl, nicStep, hip, hv6, ho0, ho1, ho2, ho3, ho4, ho5, ho7,
      pk0, vk0, nk0, nv0, pk1, vk1, nk1, nv1, pk2, vk2, nk2, nv2, pk3, vk3, nk3, nv3, pk4, vk4, nk4, nv4, pk5, vk5, nk5, nv5, pk6, vk6, nk6, nv6, pk7, vk7, nk7, nv7, Vars.set, Vars.empty]
  ·
    have ho0 := hothers 0 (by decide) (by decide)
    rw [pk0] at ho0
    have ho1 := hothers 1 (by decide) (by decide)
    rw [pk1] at ho1
    have ho2 := hothers 2 (by decide) (by decide)
    rw [pk2] at ho2
    have ho3 := hothers 3 (by decide) (by decide)
    rw [pk3] at ho3
    have ho4 := hothers 4 (by decide) (by decide)
    rw [pk4] at ho4
    have ho5 := hothers 5 (by decide) (by decide)
    rw [pk5] at ho5
    have ho6 := hothers 6 (by decide) (by decide)
    rw [pk6] at ho6
    rw [pk7] at hip
    rw [vk7] at hv6
    simp [List.foldl, nicStep, hip, hv6, ho0, ho1, ho2, ho3, ho4, ho5, ho6,
      pk0, vk0, nk0, nv0, pk1, vk1, nk1, nv1, pk2, vk2, nk2, nv2, pk3, vk3, nk3, nv3, pk4, vk4, nk4, nv4, pk5, vk5, nk5, nv5, pk6, vk6, nk6, nv6, pk7, vk7, nk7, nv7, Vars.set, Vars.empty]


/-- Any `label_`-prefixed key starts with the character 'l'. -/
theorem label_append_head (k : String) : ("label_" ++ k).data.head? = some 'l' := by
  cases k
  rfl

/-- A `label_`-prefixed key never equals a key that does not start with 'l'. -/
theorem label_append_ne (k s : String) (h : s.data.head? ≠ some 'l') :
    ¬("label_" ++ k = s) := fun he => h (he ▸ label_append_head k)

/-- Writing a key that does not start with 'l' adds no `label_`-prefixed key. -/
theorem noLabelKeys_set (vars : Vars) (s v : String) (h : s.data.head? ≠ some 'l')
    (ih : ∀ k, vars ("label_" ++ k) = none) :
    ∀ k, (vars.set s v) ("label_" ++ k) = none := fun k => by
  rw [Vars.set_ne _ _ _ _ (label_append_ne k s h)]
  exact ih k

/-- C9: a failed construction of the management-API client is a hard error
that `labelsFromGCE` returns and `gceVars` aborts with; a failed
per-instance lookup after construction is only logged, `labelsFromGCE`
returns an empty label set with no error, the collection succeeds and the
table holds no `label_`-prefixed key. -/
theorem c9_label_failure_policy (env : Env) (a b c nm z ii ei tv mv nicErr : String)
    (h1 : env.onGCE = true) (h2 : env.projectID = .ok a)
    (h3 : env.numericProjectID = .ok b) (h4 : env.instanceID = .ok c)
    (h5 : env.isKubernetes = false) (h6 : env.instanceName = .ok nm)
    (hz : env.zone = .ok z) (hii : env.internalIP = .ok ii)
    (hei : env.externalIP = .ok ei)
    (htv : env.instanceAttributeValue "instance-template" = .ok tv)
    (hmv : env.get "instance/machine-type" = .ok mv)
    (hnic : ∀ i, i < maxNICs → env.get (nicIPPath i) = .error nicErr) :
    (∀ m, env.newService = .error m →
      (∀ p q r lg, (labelsFromGCE env p q r lg).2 =
        .error ("error creating compute service to get instance labels: " ++ m)) ∧
      (gceVars env Vars.empty []).err =
        some ("error creating compute service to get instance labels: " ++ m)) ∧
    (∀ m, env.newService = .ok () → (∀ x y w, env.instancesGet x y w = .error m) →
      (∀ p q r lg, (labelsFromGCE env p q r lg).2 = .ok []) ∧
      (gceVars env Vars.empty []).err = none ∧
      LogEntry.mk .warning
        ("sysvars_gce: Error while fetching the instance resource using GCE API: "
          ++ m ++ ". Continuing without labels info.")
        ∈ (gceVars env Vars.empty []).log ∧
      (∀ k, (gceVars env Vars.empty []).vars ("label_" ++ k) = none)) := by
  have hskip : ∀ v l, addGceNicInfo env v l = (v, l) := fun v l =>
    addGceNicInfo_of_no_ip env v l nicErr hnic
  constructor
  · intro m hm
    constructor
    · intro p q r lg
      simp [labelsFromGCE, hm]
    · simp [gceVars, commonGCEGKEVars, attrLoop, attrKeys, attrStep, labelsFromGCE,
        h1, h2, h3, h4, h5, h6, hz, hii, hei, htv, hmv, hskip, hm]
  · intro m hm hfail
    refine ⟨?_, ?_, ?_, ?_⟩
    · intro p q r lg
      simp [labelsFromGCE, hm, hfail]
    · simp [gceVars, commonGCEGKEVars, attrLoop, attrKeys, attrStep, labelsFromGCE,
        h1, h2, h3, h4, h5, h6, hz, hii, hei, htv, hmv, hskip, hm, hfail]
    · simp [gceVars, commonGCEGKEVars, attrLoop, attrKeys, attrStep, labelsFromGCE,
        h1, h2, h3, h4, h5, h6, hz, hii, hei, htv, hmv, hskip, hm, hfail]
    · simp [gceVars, commonGCEGKEVars, attrLoop, attrKeys, attrStep, labelsFromGCE,
        h1, h2, h3, h4, h5, h6, hz, hii, hei, htv, hmv, hskip, hm, hfail]
      refine noLabelKeys_set _ _ _ (by decide) ?_
      refine noLabelKeys_set _ _ _ (by decide) ?_
      refine noLabelKeys_set _ _ _ (by decide) ?_
      refine noLabelKeys_set _ _ _ (by decide) ?_
      refine noLabelKeys_set _ _ _ (by decide) ?_
      refine noLabelKeys_set _ _ _ (by decide) ?_
      refine noLabelKeys_set _ _ _ (by decide) ?_
      refine noLabelKeys_set _ _ _ (by decide) ?_
      refine noLabelKeys_set _ _ _ (by decide) ?_
      refine noLabelKeys_set _ _ _ (by decide) ?_
      exact fun k => rfl


/-- A list without the separator splits into a single token. -/
theorem splitChars_of_not_mem (sep : Char) (l : List Char) (h : sep ∉ l) :
    splitChars sep l = [l] := by
  induction l with
  | nil => rfl
  | cons c cs ih =>
    have hc : ¬(c = sep) := by
      intro he
      subst he
      exact h (List.mem_cons_self c cs)
    have hcs : sep ∉ cs := fun hm => h (List.mem_cons_of_mem c hm)
    simp only [splitChars, hc, if_false, ih hcs]

/-- On a nonempty list, `getLastD` is the true last element. -/
theorem getLastD_eq_getLast {α : Type} (l : List α) (d : α) (h : l ≠ []) :
    l.getLastD d = l.getLast h := by
  cases l with
  | nil => exact absurd rfl h
  | cons a t => rw [List.getLastD_cons, List.getLast_eq_getLastD]

/-- C10: the split always yields at least one token, so the last-token
access of `getLastToken` is in bounds, and a zone string containing no
hyphen produces the empty `region`. -/
theorem c10_split_totality (s z : String) (sep : Char) :
    1 ≤ (stringSplit s sep).length ∧
    (∃ h : stringSplit s '/' ≠ [], getLastToken s = (stringSplit s '/').getLast h) ∧
    ('-' ∉ z.data → regionFromZone z = "") := by
  refine ⟨?_, ⟨stringSplit_ne_nil s '/', ?_⟩, ?_⟩
  · cases hsp : stringSplit s sep with
    | nil => exact absurd hsp (stringSplit_ne_nil s sep)
    | cons a l => simp
  · exact getLastD_eq_getLast (stringSplit s '/') "" (stringSplit_ne_nil s '/')
  · intro hnh
    have hsp : stringSplit z '-' = [List.asString z.data] := by
      rw [stringSplit, splitChars_of_not_mem '-' z.data hnh]
      rfl
    simp [regionFromZone, hsp, joinSep]


/-! Witnesses -/

/-- C2 witness: at `envC2` the call succeeds, writes `namespace`, and the
rest of the table stays empty. -/
theorem c2_witness :
    (gceVars envC2 Vars.empty []).err = none ∧
    (gceVars envC2 Vars.empty []).vars "namespace" = some "prod-ns" ∧
    (gceVars envC2 Vars.empty []).vars "zone" = none :=
  have h := c2_orchestration_exact_table envC2 "my-proj" "12345" "6789" rfl rfl rfl rfl rfl
  ⟨h.1, h.2.2.2.2.2.1, h.2.2.2.2.2.2 "zone" (by decide) (by decide) (by decide) (by decide)⟩

/-- C3 witness: the failing key is named in the error; on full success all
three identity values are present with no error. -/
theorem c3_witness :
    (commonGCEGKEVars envC3 Vars.empty).2 = some (metadataErr "project_id" "boom") ∧
    (commonGCEGKEVars envBase Vars.empty).2 = none ∧
    (commonGCEGKEVars envBase Vars.empty).1 "project" = some "my-proj" :=
  ⟨(c3_identity_mandatory envC3 Vars.empty []).2.1 "my-proj" "boom" rfl rfl,
   ((c3_identity_mandatory envBase Vars.empty []).2.2.2.1 "my-proj" "12345" "6789"
      rfl rfl rfl).1,
   ((c3_identity_mandatory envBase Vars.empty []).2.2.2.1 "my-proj" "12345" "6789"
      rfl rfl rfl).2.1⟩

/-- C4 witness: the error names `internal_ip` and the platform flag stays
true. -/
theorem c4_witness :
    (gceVars envC4 Vars.empty []).err = some (metadataErr "internal_ip" "down") ∧
    (gceVars envC4 Vars.empty []).onGCE = true :=
  (c4_mandatory_attr_failure envC4 Vars.empty [] "my-proj" "12345" "6789" "vm-1"
      rfl rfl rfl rfl rfl rfl).2.1 "us-central1-a" "down" rfl rfl

/-- C5 witness: `instance_template` falls back to "undefined" with an info
log line and no error; on success only the trailing path segment is kept. -/
theorem c5_witness :
    (gceVars envC5 Vars.empty []).vars "instance_template" = some "undefined" ∧
    (gceVars envC5 Vars.empty []).err = none ∧
    LogEntry.mk .info "No instance_template found. Defaulting to undefined."
      ∈ (gceVars envC5 Vars.empty []).log ∧
    (gceVars envBase Vars.empty []).vars "instance_template" = some "tpl-7" ∧
    (gceVars envBase Vars.empty []).vars "machine_type" = some "n1-standard-1" :=
  have hf := (c5_undefined_fallback envC5 Vars.empty [] "my-proj" "12345" "6789" "vm-1"
      "us-central1-a" "10.0.0.2" "34.1.2.3" "nf"
      rfl rfl rfl rfl rfl rfl rfl rfl rfl (by decide) rfl (fun _ _ _ => rfl)).1
    "nf" "projects/p/machineTypes/n1-standard-1" rfl rfl
  have hs := c5_undefined_fallback envBase Vars.empty [] "my-proj" "12345" "6789" "vm-1"
      "us-central1-a" "10.0.0.2" "34.1.2.3" "nf"
      rfl rfl rfl rfl rfl rfl rfl rfl rfl (by decide) rfl (fun _ _ _ => rfl)
  ⟨hf.1, hf.2.1, hf.2.2,
   hs.2.1 "projects/p/instanceTemplates/tpl-7" "projects/p/machineTypes/n1-standard-1" rfl rfl,
   hs.2.2.2 "projects/p/instanceTemplates/tpl-7" "projects/p/machineTypes/n1-standard-1" rfl rfl⟩

/-- C6 witness: region derivation at the spec's two example zones. -/
theorem c6_witness :
    (gceVars envBase Vars.empty []).vars "zone" = some "us-central1-a" ∧
    (gceVars envBase Vars.empty []).vars "region" = some "us-central1" ∧
    (gceVars envC6 Vars.empty []).vars "region" = some "a-b-c" :=
  have h1 := c6_region_from_zone envBase Vars.empty [] "my-proj" "12345" "6789" "vm-1"
    "us-central1-a" "10.0.0.2" "34.1.2.3" "projects/p/instanceTemplates/tpl-7"
    "projects/p/machineTypes/n1-standard-1" "nf"
    rfl rfl rfl rfl rfl rfl rfl rfl rfl rfl rfl (by decide) rfl (fun _ _ _ => rfl)
  have h2 := c6_region_from_zone envC6 Vars.empty [] "my-proj" "12345" "6789" "vm-1"
    "a-b-c-d" "10.0.0.2" "34.1.2.3" "projects/p/instanceTemplates/tpl-7"
    "projects/p/machineTypes/n1-standard-1" "nf"
    rfl rfl rfl rfl rfl rfl rfl rfl rfl rfl rfl (by decide) rfl (fun _ _ _ => rfl)
  ⟨h1.1, h1.2.1, h2.2.1⟩

/-- C7 witness: `nic_0_ip` and `nic_2_ip` present, `nic_1_ip` absent, and
the trimmed IPv6 alias. -/
theorem c7_witness :
    (addGceNicInfo envC7 Vars.empty []).1 "nic_0_ip" = some "10.0.0.2" ∧
    (addGceNicInfo envC7 Vars.empty []).1 "nic_1_ip" = none ∧
    (addGceNicInfo envC7 Vars.empty []).1 "nic_2_ip" = some "10.0.1.2" ∧
    (addGceNicInfo envC7 Vars.empty []).1 "internal_ipv6_ip" = some "2001:db8::1" :=
  c7_nic_slots_independent envC7 "10.0.0.2" "10.0.1.2" "nf" "nf" "nf"
    rfl rfl rfl rfl rfl (by decide)

/-- C8 witness: the trimmed IPv6 value sits under the raw path key, no
`nic_0_ipv6` key exists, and the alias is written for slot 0. -/
theorem c8_witness :
    (addGceNicInfo envC8 Vars.empty []).1 (nicIPv6Path 0) = some "fe80::1" ∧
    (addGceNicInfo envC8 Vars.empty []).1 "nic_0_ipv6" = none ∧
    (addGceNicInfo envC8 Vars.empty []).1 "internal_ipv6_ip" = some "fe80::1" :=
  c8_ipv6_raw_path_key envC8 0 "10.0.0.2" "  fe80::1 " "nf"
    (by decide) rfl rfl (by decide)

/-- C9 witness: construction failure aborts with the wrapped error; a
per-instance failure leaves no error and no `label_` key. -/
theorem c9_witness :
    (gceVars envC9a Vars.empty []).err =
      some ("error creating compute service to get instance labels: " ++ "auth") ∧
    (gceVars envC9b Vars.empty []).err = none ∧
    (gceVars envC9b Vars.empty []).vars ("label_" ++ "env") = none :=
  have ha := (c9_label_failure_policy envC9a "my-proj" "12345" "6789" "vm-1"
    "us-central1-a" "10.0.0.2" "34.1.2.3" "projects/p/instanceTemplates/tpl-7"
    "projects/p/machineTypes/n1-standard-1" "nf"
    rfl rfl rfl rfl rfl rfl rfl rfl rfl rfl rfl (by decide)).1 "auth" rfl
  have hb := (c9_label_failure_policy envC9b "my-proj" "12345" "6789" "vm-1"
    "us-central1-a" "10.0.0.2" "34.1.2.3" "projects/p/instanceTemplates/tpl-7"
    "projects/p/machineTypes/n1-standard-1" "nf"
    rfl rfl rfl rfl rfl rfl rfl rfl rfl rfl rfl (by decide)).2 "denied" rfl
    (fun _ _ _ => rfl)
  ⟨ha.2, hb.2.1, hb.2.2.2 "env"⟩

/-- C10 witness: a concrete split length and a hyphen-free zone giving the
empty region. -/
theorem c10_witness :
    1 ≤ (stringSplit "projects/p/machineTypes/n1-standard-1" '/').length ∧
    regionFromZone "uscentral1" = "" :=
  ⟨(c10_split_totality "projects/p/machineTypes/n1-standard-1" "uscentral1" '/').1,
   (c10_split_totality "projects/p/machineTypes/n1-standard-1" "uscentral1" '/').2.2
     (by decide)⟩

end SysvarsGce
